import Mathlib

/-
  Verification development for the atomicdb repository (src/index.js):
  a Discord delivery bot with an Express webhook endpoint.  The mutable
  JSON document `db` has three top-level objects: `mappings`
  (robloxId -> discordId), `deliveredReceipts` (receiptId -> receipt
  record) and `deliveredPasses` (robloxId_productId -> claim record).

  JavaScript objects are embedded as association lists with in-place
  update semantics; outbound I/O (Discord sends, user fetch, file
  existence, the Roblox inventory API) is abstracted into an `Env`
  record of outcomes, one flag per fallible operation, so each handler
  becomes a pure function of (config, request, db, env).
-/

set_option maxHeartbeats 1000000

namespace AtomicDb

/-- Association-list read, mirroring JavaScript property access `m[k]`:
the value at the first entry whose key equals `k`, if any. -/
def getKey {α : Type} : List (String × α) → String → Option α
  | [], _ => none
  | e :: t, k => if e.1 == k then some e.2 else getKey t k

/-- Truthiness test for property presence, mirroring `if (m[k]) ...` on a
record-valued property (record values are always truthy in JS). -/
def hasKey {α : Type} : List (String × α) → String → Bool
  | [], _ => false
  | e :: t, k => e.1 == k || hasKey t k

/-- Association-list write, mirroring JavaScript assignment `m[k] = v`:
an existing key keeps its position and gets the new value; a fresh key is
appended at the end. -/
def setKey {α : Type} : List (String × α) → String → α → List (String × α)
  | [], k, v => [(k, v)]
  | e :: t, k, v => if e.1 == k then (k, v) :: t else e :: setKey t k v

/-- Association-list key removal, mirroring `delete m[k]`. -/
def delKey {α : Type} (m : List (String × α)) (k : String) :
    List (String × α) :=
  m.filter (fun e => !(e.1 == k))

/-- JavaScript truthiness of an optional string field: absent
(`undefined`) and the empty string are falsy. -/
def truthy : Option String → Bool
  | none => false
  | some s => !(s == "")

/-- Body of the payment webhook (`req.body` of POST /api/payment).
Fields are optional strings; `!payload.field` in the source is the
`truthy` test above. -/
structure Payload where
  userId : Option String
  productId : Option String
  receiptId : Option String
  discordId : Option String
deriving DecidableEq, Repr

/-- Receipt status stored in `db.deliveredReceipts`. -/
inductive RStatus where
  | pending
  | delivered
  | failed
deriving DecidableEq, Repr

/-- One entry of `db.deliveredReceipts`: the status, the original
payload, and the `deliveredAt` timestamp (absent on pending entries). -/
structure Receipt where
  rstatus : RStatus
  rpayload : Payload
  deliveredAt : Option Nat
deriving DecidableEq, Repr

/-- One entry of `db.deliveredPasses`, written by the !check flow. -/
structure PassClaim where
  productId : String
  robloxId : String
  discordId : String
  deliveredAt : Nat
deriving DecidableEq, Repr

/-- The persisted JSON document (`let db = ...` in src/index.js). -/
structure DB where
  mappings : List (String × String)
  deliveredReceipts : List (String × Receipt)
  deliveredPasses : List (String × PassClaim)
deriving DecidableEq, Repr

/-- Static catalog entry of `productMap`. -/
structure Product where
  gamePassId : String
  filename : String
  description : String
  name : String
deriving DecidableEq, Repr

/-- The `productMap` table from src/index.js.  All three keys are
array-index-like strings, so `Object.entries` iterates them in ascending
numeric order (not source order); the list is written in that order. -/
def productMap : List (String × Product) :=
  [("1577628225",
     ⟨"1577628225", "configs/deerage.zip",
      "THE BEST Dee hood RAGE CFG", "Dee Hood Rage CFG"⟩),
   ("1581370634",
     ⟨"1581370634", "configs/deelegit.zip",
      "THE BEST Dee hood LEGIT CFG", "Dee Hood Legit CFG"⟩),
   ("1583049994",
     ⟨"1583049994", "configs/arage.zip",
      "THE BEST Ar hood RAGE CFG", "Ar Hood Rage CFG"⟩)]

/-- Outcome of one outbound inventory query, as observed by
`checkGamePassOwnership`: the fetch may throw (transport error), the
body may fail to parse as JSON, or it parses to an object whose `data`
field is absent or a (possibly empty) array. -/
inductive FetchOutcome where
  | transportError
  | parseError
  | parsed (dataField : Option (List Unit))
deriving DecidableEq, Repr

/-- Embedding of `checkGamePassOwnership` (src/index.js:210-236): any
thrown error is caught and turned into `false`; otherwise the result is
`data.data && data.data.length > 0`. -/
def checkGamePassOwnership : FetchOutcome → Bool
  | .transportError => false
  | .parseError => false
  | .parsed none => false
  | .parsed (some l) => decide (0 < l.length)

/-- Environment of outcomes for the fallible external operations one
delivery attempt performs.  Each `dm*Ok` flag tells whether the
corresponding `user.send` call succeeds (rather than throwing);
`roleAssigned` is the boolean result of `assignBuyerRole`, which catches
its own errors and never throws. -/
structure Env where
  fetchUserOk : Bool
  fileExists : String → Bool
  dmEmbedOk : Bool
  dmFileOk : Bool
  dmNoticeOk : Bool
  roleAssigned : Bool
  dmRoleNotifyOk : Bool
  fetchOutcome : String → String → FetchOutcome
  now : Nat

/-- Result of one delivery attempt.  `ok` is the value the source
function returns; `noticeSent` records whether the
"File not configured" notice send was reached (an instrumentation field
for stating side-effect properties, not a source return value). -/
structure DeliverResult where
  ok : Bool
  noticeSent : Bool
deriving DecidableEq, Repr

/-- Shared tail of both delivery paths after the file-or-notice step:
`assignBuyerRole` never throws, but when it reports a fresh assignment
the follow-up `user.send` notification can throw, which the outer catch
turns into a failure result.  The proof-channel broadcast catches its
own errors and cannot affect the result. -/
def afterFileStep (env : Env) (noticeSent : Bool) : DeliverResult :=
  if env.roleAssigned && !env.dmRoleNotifyOk then ⟨false, noticeSent⟩
  else ⟨true, noticeSent⟩

/-- Embedding of `deliverConfig` (src/index.js:336-384), the manual
!check delivery path: embed DM, then the file if it exists on disk —
otherwise the "File not configured" notice followed by `return false` —
then role grant and notification.  Any throw is caught and yields
`false`. -/
def deliverConfig (env : Env) (product : Product) : DeliverResult :=
  if !env.dmEmbedOk then ⟨false, false⟩
  else if env.fileExists product.filename then
    if !env.dmFileOk then ⟨false, false⟩
    else afterFileStep env false
  else ⟨false, true⟩

/-- Embedding of `deliverToDiscord` (src/index.js:386-449), the webhook
delivery path: fetch the user, send the embed, then the file if the
product is known and its file exists — otherwise the "File not
configured" notice, with NO early failure return — then role grant and
notification.  Any throw is caught and yields a failure result. -/
def deliverToDiscord (env : Env) (p : Payload) : DeliverResult :=
  if !env.fetchUserOk then ⟨false, false⟩
  else if !env.dmEmbedOk then ⟨false, false⟩
  else
    match p.productId.bind (fun pid => getKey productMap pid) with
    | some prod =>
      if env.fileExists prod.filename then
        if !env.dmFileOk then ⟨false, false⟩
        else afterFileStep env false
      else
        if !env.dmNoticeOk then ⟨false, true⟩
        else afterFileStep env true
    | none =>
      if !env.dmNoticeOk then ⟨false, true⟩
      else afterFileStep env true

/-- Response of the payment webhook handler.  `deliveries` counts the
`deliverToDiscord` invocations the request performed (0 or 1) and
`target` records the discordId passed to it, instrumentation for the
idempotency and precedence claims. -/
structure PaymentResp where
  status : Nat
  body : String
  db : DB
  deliveries : Nat
  target : Option String
deriving DecidableEq, Repr

/-- Embedding of the POST /api/payment handler (src/index.js:763-804):
shared-secret check, payload validation, replay check against
`deliveredReceipts`, identity resolution
(`payload.discordId || db.mappings[String(payload.userId)]`), then
either a pending record or a delivery attempt whose outcome is
recorded. -/
def handlePayment (sharedSecret secret : String) (env : Env)
    (p : Payload) (db : DB) : PaymentResp :=
  if !(secret == sharedSecret) then ⟨401, "Unauthorized", db, 0, none⟩
  else if !(truthy p.userId && truthy p.productId && truthy p.receiptId) then
    ⟨400, "Invalid payload", db, 0, none⟩
  else
    let rid := p.receiptId.getD ""
    if hasKey db.deliveredReceipts rid then
      ⟨200, "Already delivered", db, 0, none⟩
    else
      let resolved : Option String :=
        if truthy p.discordId then p.discordId
        else getKey db.mappings (p.userId.getD "")
      if !(truthy resolved) then
        let rec0 : Receipt := ⟨.pending, p, none⟩
        ⟨200, "No Discord ID found",
         { db with deliveredReceipts := setKey db.deliveredReceipts rid rec0 },
         0, none⟩
      else
        let result := deliverToDiscord env p
        let st : RStatus := if result.ok then .delivered else .failed
        let rec1 : Receipt := ⟨st, p, some env.now⟩
        ⟨200, if result.ok then "Delivered" else "Delivery failed",
         { db with deliveredReceipts := setKey db.deliveredReceipts rid rec1 },
         1, some (resolved.getD "")⟩

/-- Response body of the POST /map handler. -/
inductive MapBody where
  | unauthorized
  | missingFields
  | okTrue
deriving DecidableEq, Repr

/-- Response of the POST /map handler. -/
structure MapResp where
  status : Nat
  body : MapBody
  db : DB
deriving DecidableEq, Repr

/-- Embedding of the POST /map handler (src/index.js:839-850):
shared-secret check, field validation, then an unconditional mapping
overwrite `db.mappings[String(robloxId)] = discordId`. -/
def handleMap (sharedSecret secret : String)
    (robloxId discordId : Option String) (db : DB) : MapResp :=
  if !(secret == sharedSecret) then ⟨401, .unauthorized, db⟩
  else if !(truthy robloxId && truthy discordId) then
    ⟨400, .missingFields, db⟩
  else
    ⟨200, .okTrue,
     { db with mappings :=
         setKey db.mappings (robloxId.getD "") (discordId.getD "") }⟩

/-- The Express routes registered by src/index.js (method, path); the
second /map registration replaces the first identical one. -/
def appRoutes : List (String × String) :=
  [("POST", "/api/payment"), ("POST", "/map"), ("GET", "/health")]

/-- Reverse scan of the mapping table, mirroring
`Object.keys(db.mappings).find((id) => db.mappings[id] === userId)`. -/
def reverseLookup (m : List (String × String)) (v : String) :
    Option String :=
  (m.find? (fun e => e.2 == v)).map (fun e => e.1)

/-- The claim key `robloxId_productId` used by the !check flow. -/
def deliveryKey (robloxId productId : String) : String :=
  robloxId ++ "_" ++ productId

/-- Result of one !check invocation.  `invoked` lists the productIds for
which `deliverConfig` ran, `queries` the productIds for which an
ownership query was issued, `outcome` the product delivery attempted (if
any) with its success flag, `registered` whether the reverse lookup
found a linked robloxId. -/
structure CheckResult where
  db : DB
  invoked : List String
  queries : List String
  outcome : Option (String × Bool)
  registered : Bool
deriving Repr

/-- Embedding of the product loop of the !check handler
(src/index.js:699-741): for each catalog entry in iteration order, skip
it if its claim key is already in `deliveredPasses`; otherwise query
ownership; on ownership run `deliverConfig`, record the claim on
success, and return from the handler immediately (whether or not the
delivery succeeded). -/
def checkLoop (env : Env) (userId robloxId : String) (db : DB) :
    List (String × Product) → CheckResult
  | [] => ⟨db, [], [], none, true⟩
  | (pid, prod) :: rest =>
    let key := deliveryKey robloxId pid
    if hasKey db.deliveredPasses key then
      checkLoop env userId robloxId db rest
    else if checkGamePassOwnership (env.fetchOutcome robloxId prod.gamePassId) then
      if (deliverConfig env prod).ok then
        let claim : PassClaim := ⟨pid, robloxId, userId, env.now⟩
        ⟨{ db with deliveredPasses := setKey db.deliveredPasses key claim },
         [pid], [pid], some (pid, true), true⟩
      else ⟨db, [pid], [pid], some (pid, false), true⟩
    else
      let res := checkLoop env userId robloxId db rest
      ⟨res.db, res.invoked, pid :: res.queries, res.outcome, true⟩

/-- Embedding of the !check command handler: resolve the author's linked
robloxId by reverse scan, abort if unregistered, else run the product
loop over the catalog. -/
def handleCheck (env : Env) (userId : String) (db : DB) : CheckResult :=
  match reverseLookup db.mappings userId with
  | none => ⟨db, [], [], none, false⟩
  | some robloxId => checkLoop env userId robloxId db productMap

/-- Embedding of the state change of a successful !register command
(src/index.js:586-591): the resolved robloxId is mapped to the message
author, overwriting any previous mapping for that robloxId. -/
def registerCmd (db : DB) (robloxId discordUserId : String) : DB :=
  { db with mappings := setKey db.mappings robloxId discordUserId }

/-- Embedding of the state change of the !unlink command
(src/index.js:627-662): reverse-scan for the author's robloxId and
delete that mapping; no mapping found means no change. -/
def unlinkCmd (db : DB) (discordUserId : String) : DB :=
  match reverseLookup db.mappings discordUserId with
  | none => db
  | some robloxId => { db with mappings := delKey db.mappings robloxId }

/-- Every state-mutating operation of the system, for stating
whole-system invariants. -/
inductive Op where
  | payment (env : Env) (secret : String) (p : Payload)
  | mapReq (secret : String) (robloxId discordId : Option String)
  | registerOp (robloxId discordUserId : String)
  | unlinkOp (discordUserId : String)
  | checkOp (env : Env) (discordUserId : String)

/-- The database after one operation. -/
def applyOp (sharedSecret : String) (db : DB) : Op → DB
  | .payment env secret p => (handlePayment sharedSecret secret env p db).db
  | .mapReq secret r d => (handleMap sharedSecret secret r d db).db
  | .registerOp r d => registerCmd db r d
  | .unlinkOp d => unlinkCmd db d
  | .checkOp env d => (handleCheck env d db).db

/-- Well-formedness of an embedded JavaScript object: its keys are
pairwise distinct.  Every state reachable by the program satisfies this
(JS objects cannot hold duplicate keys). -/
def nodupKeys {α : Type} (m : List (String × α)) : Prop :=
  (m.map Prod.fst).Nodup

/-- Concrete environment: every external operation succeeds, every file
exists, every ownership query reports a one-element inventory. -/
def envA : Env :=
  ⟨true, fun _ => true, true, true, true, false, true,
   fun _ _ => .parsed (some [()]), 0⟩

/-- Concrete environment where every send succeeds but no product file
exists on disk. -/
def envNoFile : Env :=
  ⟨true, fun _ => false, true, true, true, false, true,
   fun _ _ => .parsed none, 0⟩

/-- Concrete environment where the user owns exactly the numerically
first catalog product and all deliveries succeed. -/
def envOwnsFirst : Env :=
  ⟨true, fun _ => true, true, true, true, false, true,
   fun _ gp => if gp = "1577628225" then .parsed (some [()])
               else .parsed none, 0⟩

/-- Concrete environment where every ownership query reports an empty
inventory. -/
def envOwnsNothing : Env :=
  ⟨true, fun _ => true, true, true, true, false, true,
   fun _ _ => .parsed none, 0⟩

/-- Concrete environment where the user owns exactly the numerically
last catalog product and all deliveries succeed. -/
def envOwnsLast : Env :=
  ⟨true, fun _ => true, true, true, true, false, true,
   fun _ gp => if gp = "1583049994" then .parsed (some [()])
               else .parsed none, 0⟩

/-- The empty persisted document. -/
def dbEmpty : DB := ⟨[], [], []⟩

/-- A document with one identity mapping 111 -> D1. -/
def dbReg : DB := ⟨[("111", "D1")], [], []⟩

/-- A document where identity 111 is mapped to D1 and has already
claimed catalog product 1577628225. -/
def dbClaimed : DB :=
  ⟨[("111", "D1")], [],
   [("111_1577628225", ⟨"1577628225", "111", "D1", 0⟩)]⟩

/-- The catalog entry for product 1581370634. -/
def prodLegit : Product :=
  ⟨"1581370634", "configs/deelegit.zip",
   "THE BEST Dee hood LEGIT CFG", "Dee Hood Legit CFG"⟩

/-- A well-formed webhook payload with no discordId field. -/
def payloadA : Payload := ⟨some "111", some "1581370634", some "R1", none⟩

/-- A well-formed webhook payload carrying an explicit discordId. -/
def payloadB : Payload :=
  ⟨some "111", some "1581370634", some "R1", some "D9"⟩

theorem getKey_setKey_self {α : Type} (m : List (String × α)) (k : String)
    (v : α) : getKey (setKey m k v) k = some v := by
  induction m with
  | nil => simp [setKey, getKey]
  | cons e t ih =>
    by_cases h : e.1 = k <;> simp [setKey, getKey, h, ih]

theorem getKey_setKey_ne {α : Type} (m : List (String × α))
    (k k' : String) (v : α) (h : k' ≠ k) :
    getKey (setKey m k v) k' = getKey m k' := by
  induction m with
  | nil => simp [setKey, getKey, Ne.symm h]
  | cons e t ih =>
    by_cases he : e.1 = k
    · simp [setKey, getKey, he, Ne.symm h]
    · by_cases he' : e.1 = k' <;> simp [setKey, getKey, he, he', h, ih]

theorem hasKey_iff_mem {α : Type} (m : List (String × α)) (k : String) :
    hasKey m k = true ↔ k ∈ m.map Prod.fst := by
  induction m with
  | nil => simp [hasKey]
  | cons e t ih =>
    simp only [hasKey, Bool.or_eq_true, beq_iff_eq, List.map_cons,
      List.mem_cons, ih]
    exact or_congr eq_comm Iff.rfl

theorem hasKey_eq_isSome {α : Type} (m : List (String × α)) (k : String) :
    hasKey m k = (getKey m k).isSome := by
  induction m with
  | nil => simp [hasKey, getKey]
  | cons e t ih => by_cases h : e.1 = k <;> simp [hasKey, getKey, h, ih]

theorem keys_setKey {α : Type} (m : List (String × α)) (k : String)
    (v : α) :
    (setKey m k v).map Prod.fst =
      if hasKey m k then m.map Prod.fst else m.map Prod.fst ++ [k] := by
  induction m with
  | nil => simp [setKey, hasKey]
  | cons e t ih =>
    by_cases h : e.1 = k
    · simp [setKey, hasKey, h]
    · by_cases ht : hasKey t k <;> simp [setKey, hasKey, h, ht, ih]

theorem nodupKeys_setKey {α : Type} (m : List (String × α)) (k : String)
    (v : α) (h : nodupKeys m) : nodupKeys (setKey m k v) := by
  unfold nodupKeys at *
  rw [keys_setKey]
  by_cases hk : hasKey m k
  · simpa [hk] using h
  · have : k ∉ m.map Prod.fst := fun hm => hk ((hasKey_iff_mem m k).2 hm)
    simp [hk, List.nodup_append, h, this]

theorem filter_eq_nil_of_not_hasKey {α : Type} (m : List (String × α))
    (k : String) (h : hasKey m k = false) :
    m.filter (fun e => e.1 == k) = [] := by
  induction m with
  | nil => simp
  | cons e t ih =>
    simp only [hasKey, Bool.or_eq_false_iff, beq_eq_false_iff_ne] at h
    have hb : (e.1 == k) = false := beq_eq_false_iff_ne.mpr h.1
    simp [List.filter_cons, hb, ih h.2]

theorem filter_setKey_self {α : Type} (m : List (String × α))
    (k : String) (v : α) (h : nodupKeys m) :
    (setKey m k v).filter (fun e => e.1 == k) = [(k, v)] := by
  induction m with
  | nil => simp [setKey]
  | cons e t ih =>
    unfold nodupKeys at h
    simp only [List.map_cons, List.nodup_cons] at h
    by_cases he : e.1 = k
    · have ht : hasKey t k = false := by
        rw [Bool.eq_false_iff]
        intro hk
        exact h.1 (he ▸ (hasKey_iff_mem t k).1 hk)
      simp [setKey, he, List.filter, filter_eq_nil_of_not_hasKey t k ht]
    · simp [setKey, he, List.filter, ih h.2]

/-- An absent optional field is falsy. -/
theorem truthy_none : truthy none = false := rfl

/-- C8: the ownership check is fail-closed: a transport failure or a
parse failure of the inventory response makes `checkGamePassOwnership`
return false rather than propagate an error, and it returns true exactly
when the parsed response carries a non-empty data array. -/
theorem C8_ownership_fail_closed :
    (∀ o : FetchOutcome, o = .transportError ∨ o = .parseError →
       checkGamePassOwnership o = false) ∧
    (∀ o : FetchOutcome, checkGamePassOwnership o = true ↔
       ∃ l, o = .parsed (some l) ∧ l ≠ []) := by
  constructor
  · rintro o (rfl | rfl) <;> rfl
  · intro o
    cases o with
    | transportError => simp [checkGamePassOwnership]
    | parseError => simp [checkGamePassOwnership]
    | parsed d =>
      cases d with
      | none => simp [checkGamePassOwnership]
      | some l => simp [checkGamePassOwnership, List.length_pos]

/-- Witness for C8 at concrete outcomes. -/
theorem C8_ownership_fail_closed_witness :
    checkGamePassOwnership .transportError = false ∧
    checkGamePassOwnership .parseError = false ∧
    checkGamePassOwnership (.parsed (some [()])) = true :=
  ⟨C8_ownership_fail_closed.1 .transportError (Or.inl rfl),
   C8_ownership_fail_closed.1 .parseError (Or.inr rfl),
   (C8_ownership_fail_closed.2 (.parsed (some [()]))).2
     ⟨[()], rfl, by simp⟩⟩

/-- C5: a request to the payment or mapping endpoint rejected for a bad
shared secret (401) or missing required fields (400) leaves the whole
persisted document — mappings, deliveredReceipts and deliveredPasses —
exactly as it was. -/
theorem C5_reject_no_state_change (cfg secret : String) (env : Env)
    (p : Payload) (r d : Option String) (db : DB) :
    (secret ≠ cfg →
      (handlePayment cfg secret env p db).status = 401 ∧
      (handlePayment cfg secret env p db).db = db ∧
      (handleMap cfg secret r d db).status = 401 ∧
      (handleMap cfg secret r d db).db = db) ∧
    (secret = cfg →
      (truthy p.userId && truthy p.productId && truthy p.receiptId) = false →
      (handlePayment cfg secret env p db).status = 400 ∧
      (handlePayment cfg secret env p db).db = db) ∧
    (secret = cfg → (truthy r && truthy d) = false →
      (handleMap cfg secret r d db).status = 400 ∧
      (handleMap cfg secret r d db).db = db) := by
  refine ⟨?_, ?_, ?_⟩
  · intro h
    have hb : (secret == cfg) = false := beq_eq_false_iff_ne.mpr h
    simp [handlePayment, handleMap, hb]
  · intro h hv
    simp [handlePayment, h, hv]
  · intro h hv
    simp [handleMap, h, hv]

/-- Witness for C5: a wrong secret and a missing-field body each leave
the concrete document untouched. -/
theorem C5_reject_no_state_change_witness :
    ((handlePayment "s" "bad" envA payloadA dbReg).status = 401 ∧
     (handlePayment "s" "bad" envA payloadA dbReg).db = dbReg) ∧
    ((handlePayment "s" "s" envA ⟨none, some "1581370634", some "R1", none⟩
        dbReg).status = 400 ∧
     (handlePayment "s" "s" envA ⟨none, some "1581370634", some "R1", none⟩
        dbReg).db = dbReg) ∧
    ((handleMap "s" "s" (some "111") none dbReg).status = 400 ∧
     (handleMap "s" "s" (some "111") none dbReg).db = dbReg) := by
  have h1 := (C5_reject_no_state_change "s" "bad" envA payloadA none none
    dbReg).1 (by decide)
  have h2 := ((C5_reject_no_state_change "s" "s" envA
    ⟨none, some "1581370634", some "R1", none⟩ none none dbReg).2.1)
    rfl (by decide)
  have h3 := ((C5_reject_no_state_change "s" "s" envA payloadA
    (some "111") none dbReg).2.2) rfl (by decide)
  exact ⟨⟨h1.1, h1.2.1⟩, h2, h3⟩

/-- C7: an authorized, well-formed payment event whose identity resolves
to no chat identity (no discordId in the payload, no mapping entry) is
stored as a pending receipt, performs no delivery, and answers
"No Discord ID found"; mappings and deliveredPasses are untouched. -/
theorem C7_unresolved_identity_pending (cfg : String) (env : Env)
    (p : Payload) (db : DB)
    (hu : truthy p.userId = true) (hp : truthy p.productId = true)
    (hr : truthy p.receiptId = true) (hd : p.discordId = none)
    (hm : getKey db.mappings (p.userId.getD "") = none)
    (hfresh : hasKey db.deliveredReceipts (p.receiptId.getD "") = false) :
    handlePayment cfg cfg env p db =
      ⟨200, "No Discord ID found",
       { db with deliveredReceipts :=
           setKey db.deliveredReceipts (p.receiptId.getD "") ⟨.pending, p, none⟩ },
       0, none⟩ ∧
    getKey (handlePayment cfg cfg env p db).db.deliveredReceipts
        (p.receiptId.getD "") = some ⟨.pending, p, none⟩ := by
  have hmain : handlePayment cfg cfg env p db =
      ⟨200, "No Discord ID found",
       { db with deliveredReceipts :=
           setKey db.deliveredReceipts (p.receiptId.getD "") ⟨.pending, p, none⟩ },
       0, none⟩ := by
    simp [handlePayment, hu, hp, hr, hfresh, hd, hm, truthy_none]
  refine ⟨hmain, ?_⟩
  rw [hmain]
  exact getKey_setKey_self _ _ _

/-- Witness for C7 at a concrete unmapped payload. -/
theorem C7_unresolved_identity_pending_witness :
    handlePayment "s" "s" envA payloadA dbEmpty =
      ⟨200, "No Discord ID found",
       { dbEmpty with deliveredReceipts := setKey dbEmpty.deliveredReceipts "R1" ⟨.pending, payloadA, none⟩ },
       0, none⟩ :=
  (C7_unresolved_identity_pending "s" envA payloadA dbEmpty
    (by decide) (by decide) (by decide) rfl (by decide) (by decide)).1

/-- A truthy optional string is `some` of its own default-extraction. -/
theorem truthy_isSome (o : Option String) (h : truthy o = true) :
    some (o.getD "") = o := by
  cases o <;> simp [truthy] at *

/-- An authorized POST /map with both fields present reduces to a plain
mapping overwrite. -/
theorem handleMap_ok (cfg A Z : String) (db : DB) (hA : A ≠ "")
    (hZ : Z ≠ "") :
    (handleMap cfg cfg (some A) (some Z) db).db =
      { db with mappings := setKey db.mappings A Z } := by
  simp [handleMap, truthy, beq_eq_false_iff_ne.mpr hA,
    beq_eq_false_iff_ne.mpr hZ]

/-- C6: linking is last-write-wins: linking external identity A to X and
then to Y (via POST /map or via the !register state change) leaves
exactly one mapping entry for A, namely A maps to Y, and every link
unconditionally overwrites the existing mapping for A. -/
theorem C6_link_last_write_wins (cfg : String) (db : DB) (A X Y : String)
    (hwf : nodupKeys db.mappings) (hA : A ≠ "") (hX : X ≠ "")
    (hY : Y ≠ "") :
    ((handleMap cfg cfg (some A) (some Y)
        (handleMap cfg cfg (some A) (some X) db).db).db.mappings.filter
          (fun e => e.1 == A) = [(A, Y)] ∧
     getKey (handleMap cfg cfg (some A) (some Y)
        (handleMap cfg cfg (some A) (some X) db).db).db.mappings A =
       some Y) ∧
    ((registerCmd (registerCmd db A X) A Y).mappings.filter
        (fun e => e.1 == A) = [(A, Y)] ∧
     getKey (registerCmd (registerCmd db A X) A Y).mappings A = some Y) ∧
    (∀ (db' : DB) (Z : String), Z ≠ "" →
       getKey ((handleMap cfg cfg (some A) (some Z) db').db).mappings A =
         some Z) := by
  have hm1 : (handleMap cfg cfg (some A) (some Y)
      (handleMap cfg cfg (some A) (some X) db).db).db.mappings =
        setKey (setKey db.mappings A X) A Y := by
    rw [handleMap_ok cfg A X db hA hX, handleMap_ok cfg A Y _ hA hY]
  have hwf' : nodupKeys (setKey db.mappings A X) :=
    nodupKeys_setKey db.mappings A X hwf
  refine ⟨⟨?_, ?_⟩, ⟨?_, ?_⟩, ?_⟩
  · rw [hm1]; exact filter_setKey_self _ A Y hwf'
  · rw [hm1]; exact getKey_setKey_self _ A Y
  · show (setKey (setKey db.mappings A X) A Y).filter
        (fun e => e.1 == A) = [(A, Y)]
    exact filter_setKey_self _ A Y hwf'
  · exact getKey_setKey_self _ A Y
  · intro db' Z hZ
    rw [handleMap_ok cfg A Z db' hA hZ]
    exact getKey_setKey_self _ A Z

/-- Witness for C6 at concrete identities: relinking 111 from D1 to D2
leaves the single mapping 111 maps to D2. -/
theorem C6_link_last_write_wins_witness :
    (handleMap "s" "s" (some "111") (some "D2")
        (handleMap "s" "s" (some "111") (some "D1") dbEmpty).db).db.mappings.filter
          (fun e => e.1 == "111") = [("111", "D2")] ∧
    getKey (handleMap "s" "s" (some "111") (some "D2")
        (handleMap "s" "s" (some "111") (some "D1") dbEmpty).db).db.mappings
        "111" = some "D2" :=
  (C6_link_last_write_wins "s" dbEmpty "111" "D1" "D2"
    (by simp [nodupKeys, dbEmpty]) (by decide) (by decide) (by decide)).1

/-- C10: a discordId supplied in the webhook payload takes precedence:
delivery targets it, and the handler's observable behavior does not
depend on the mapping table at all (the mapping component is returned
unchanged, everything else agrees for any two mapping tables). -/
theorem C10_payload_discord_precedence (cfg : String) (env : Env)
    (p : Payload) (m m' : List (String × String))
    (R : List (String × Receipt)) (Ps : List (String × PassClaim))
    (hu : truthy p.userId = true) (hp : truthy p.productId = true)
    (hr : truthy p.receiptId = true) (hd : truthy p.discordId = true) :
    ((handlePayment cfg cfg env p ⟨m, R, Ps⟩).deliveries = 1 →
       (handlePayment cfg cfg env p ⟨m, R, Ps⟩).target = p.discordId) ∧
    (handlePayment cfg cfg env p ⟨m, R, Ps⟩).status =
      (handlePayment cfg cfg env p ⟨m', R, Ps⟩).status ∧
    (handlePayment cfg cfg env p ⟨m, R, Ps⟩).body =
      (handlePayment cfg cfg env p ⟨m', R, Ps⟩).body ∧
    (handlePayment cfg cfg env p ⟨m, R, Ps⟩).deliveries =
      (handlePayment cfg cfg env p ⟨m', R, Ps⟩).deliveries ∧
    (handlePayment cfg cfg env p ⟨m, R, Ps⟩).target =
      (handlePayment cfg cfg env p ⟨m', R, Ps⟩).target ∧
    (handlePayment cfg cfg env p ⟨m, R, Ps⟩).db.deliveredReceipts =
      (handlePayment cfg cfg env p ⟨m', R, Ps⟩).db.deliveredReceipts ∧
    (handlePayment cfg cfg env p ⟨m, R, Ps⟩).db.deliveredPasses =
      (handlePayment cfg cfg env p ⟨m', R, Ps⟩).db.deliveredPasses ∧
    (handlePayment cfg cfg env p ⟨m, R, Ps⟩).db.mappings = m := by
  by_cases hk : hasKey R (p.receiptId.getD "") = true
  · simp [handlePayment, hu, hp, hr, hk]
  · rw [Bool.not_eq_true] at hk
    simp [handlePayment, hu, hp, hr, hk, hd, truthy_isSome p.discordId hd]

/-- Witness for C10: with an explicit discordId in the payload, two
documents with different mapping tables produce the same delivery
target, and that target is the payload's discordId. -/
theorem C10_payload_discord_precedence_witness :
    (handlePayment "s" "s" envA payloadB ⟨[("111", "DX")], [], []⟩).target =
      (handlePayment "s" "s" envA payloadB ⟨[], [], []⟩).target ∧
    ((handlePayment "s" "s" envA payloadB ⟨[("111", "DX")], [], []⟩).deliveries = 1 →
      (handlePayment "s" "s" envA payloadB ⟨[("111", "DX")], [], []⟩).target =
        payloadB.discordId) :=
  ⟨(C10_payload_discord_precedence "s" envA payloadB [("111", "DX")] []
      [] [] (by decide) (by decide) (by decide) (by decide)).2.2.2.2.1,
   (C10_payload_discord_precedence "s" envA payloadB [("111", "DX")] []
      [] [] (by decide) (by decide) (by decide) (by decide)).1⟩

/-- An authorized, well-formed payment request always leaves the receipt
recorded, and performs at most one delivery. -/
theorem handlePayment_records (cfg : String) (env : Env) (p : Payload)
    (db : DB) (hu : truthy p.userId = true) (hp : truthy p.productId = true)
    (hr : truthy p.receiptId = true) :
    hasKey (handlePayment cfg cfg env p db).db.deliveredReceipts
      (p.receiptId.getD "") = true ∧
    (handlePayment cfg cfg env p db).deliveries ≤ 1 := by
  by_cases h1 : hasKey db.deliveredReceipts (p.receiptId.getD "") = true
  · simp [handlePayment, hu, hp, hr, h1]
  · rw [Bool.not_eq_true] at h1
    by_cases h2 : truthy (if truthy p.discordId then p.discordId
      else getKey db.mappings (p.userId.getD "")) = true
    · simp [handlePayment, hu, hp, hr, h1, h2, hasKey_eq_isSome,
        getKey_setKey_self]
    · rw [Bool.not_eq_true] at h2
      simp [handlePayment, hu, hp, hr, h1, h2, hasKey_eq_isSome,
        getKey_setKey_self]

/-- A payment replaying an already-recorded receipt identifier changes
nothing and answers "Already delivered". -/
theorem handlePayment_already (cfg : String) (env : Env) (p : Payload)
    (db : DB) (hu : truthy p.userId = true) (hp : truthy p.productId = true)
    (hr : truthy p.receiptId = true)
    (hk : hasKey db.deliveredReceipts (p.receiptId.getD "") = true) :
    handlePayment cfg cfg env p db = ⟨200, "Already delivered", db, 0, none⟩ := by
  simp [handlePayment, hu, hp, hr, hk]

/-- C1: invoking the payment handler twice with the same authorized,
well-formed payload yields at most one deliverToDiscord invocation in
total; the second call answers "Already delivered" with no further
delivery and no state change, whatever status (pending, delivered or
failed) the first call recorded. -/
theorem C1_replay_single_delivery (cfg : String) (env1 env2 : Env)
    (p : Payload) (db : DB)
    (hu : truthy p.userId = true) (hp : truthy p.productId = true)
    (hr : truthy p.receiptId = true) :
    (handlePayment cfg cfg env2 p
        (handlePayment cfg cfg env1 p db).db).body = "Already delivered" ∧
    (handlePayment cfg cfg env2 p
        (handlePayment cfg cfg env1 p db).db).status = 200 ∧
    (handlePayment cfg cfg env2 p
        (handlePayment cfg cfg env1 p db).db).deliveries = 0 ∧
    (handlePayment cfg cfg env2 p
        (handlePayment cfg cfg env1 p db).db).db =
      (handlePayment cfg cfg env1 p db).db ∧
    (handlePayment cfg cfg env1 p db).deliveries +
      (handlePayment cfg cfg env2 p
        (handlePayment cfg cfg env1 p db).db).deliveries ≤ 1 := by
  have h1 := handlePayment_records cfg env1 p db hu hp hr
  have e2 := handlePayment_already cfg env2 p
    (handlePayment cfg cfg env1 p db).db hu hp hr h1.1
  rw [e2]
  exact ⟨rfl, rfl, rfl, rfl, by simpa using h1.2⟩

/-- Witness for C1: replaying receipt R1 with an explicit discordId
delivers once and then answers "Already delivered". -/
theorem C1_replay_single_delivery_witness :
    (handlePayment "s" "s" envA payloadB
        (handlePayment "s" "s" envA payloadB dbEmpty).db).body =
      "Already delivered" ∧
    (handlePayment "s" "s" envA payloadB
        (handlePayment "s" "s" envA payloadB dbEmpty).db).deliveries = 0 ∧
    (handlePayment "s" "s" envA payloadB dbEmpty).deliveries +
      (handlePayment "s" "s" envA payloadB
        (handlePayment "s" "s" envA payloadB dbEmpty).db).deliveries ≤ 1 :=
  let h := C1_replay_single_delivery "s" envA envA payloadB dbEmpty
    (by decide) (by decide) (by decide)
  ⟨h.1, h.2.2.1, h.2.2.2.2⟩

/-- C3 counterexample: the application registers POST /api/payment, not
POST /payment; a POST to /payment matches no route. -/
theorem C3_route_counterexample :
    ("POST", "/payment") ∉ appRoutes ∧
    ("POST", "/api/payment") ∈ appRoutes := by
  decide

/-- C3 amended: the inbound payment endpoint is POST /api/payment; it
answers 401 on a shared-secret mismatch, 400 when userId, productId or
receiptId is missing, and otherwise 200 with exactly one of the four
documented bodies. -/
theorem C3_payment_endpoint_behavior (cfg secret : String) (env : Env)
    (p : Payload) (db : DB) :
    ("POST", "/api/payment") ∈ appRoutes ∧
    (secret ≠ cfg → (handlePayment cfg secret env p db).status = 401) ∧
    (secret = cfg →
      (truthy p.userId && truthy p.productId && truthy p.receiptId) = false →
      (handlePayment cfg secret env p db).status = 400) ∧
    (secret = cfg →
      (truthy p.userId && truthy p.productId && truthy p.receiptId) = true →
      (handlePayment cfg secret env p db).status = 200 ∧
      (handlePayment cfg secret env p db).body ∈
        ["Delivered", "Delivery failed", "Already delivered",
         "No Discord ID found"]) := by
  refine ⟨by decide, ?_, ?_, ?_⟩
  · intro h
    simp [handlePayment, beq_eq_false_iff_ne.mpr h]
  · intro h hv
    simp [handlePayment, h, hv]
  · intro h hv
    subst h
    simp only [Bool.and_eq_true] at hv
    by_cases hk : hasKey db.deliveredReceipts (p.receiptId.getD "") = true
    · simp [handlePayment, hv.1.1, hv.1.2, hv.2, hk]
    · rw [Bool.not_eq_true] at hk
      by_cases h2 : truthy (if truthy p.discordId then p.discordId
        else getKey db.mappings (p.userId.getD "")) = true
      · cases h3 : (deliverToDiscord env p).ok <;>
          simp [handlePayment, hv.1.1, hv.1.2, hv.2, hk, h2, h3]
      · rw [Bool.not_eq_true] at h2
        simp [handlePayment, hv.1.1, hv.1.2, hv.2, hk, h2]

/-- Witness for the amended C3 at concrete requests: a bad secret gets
401 and a good request gets 200 with a documented body. -/
theorem C3_payment_endpoint_behavior_witness :
    (handlePayment "s" "bad" envA payloadB dbEmpty).status = 401 ∧
    ((handlePayment "s" "s" envA payloadB dbEmpty).status = 200 ∧
     (handlePayment "s" "s" envA payloadB dbEmpty).body ∈
       ["Delivered", "Delivery failed", "Already delivered",
        "No Discord ID found"]) :=
  ⟨(C3_payment_endpoint_behavior "s" "bad" envA payloadB dbEmpty).2.1
     (by decide),
   (C3_payment_endpoint_behavior "s" "s" envA payloadB dbEmpty).2.2.2
     rfl (by decide)⟩

/-- C4 counterexample: on the webhook path, with every send succeeding
but the configured file absent from disk, deliverToDiscord sends the
"not configured" notice yet still reports overall success, so the
partial-failure report claimed for both paths fails on this one. -/
theorem C4_missing_file_counterexample :
    envNoFile.fileExists prodLegit.filename = false ∧
    payloadA.productId.bind (fun pid => getKey productMap pid) =
      some prodLegit ∧
    deliverToDiscord envNoFile payloadA = ⟨true, true⟩ := by
  refine ⟨rfl, by decide, by decide⟩

/-- C4 amended: the success-iff-file-step equivalence holds for the
manual-check path deliverConfig — a missing file sends the notice and
reports failure, and with the sends succeeding its result equals file
existence — while the webhook path deliverToDiscord sends the notice on
a missing file but still reports success. -/
theorem C4_file_or_notice_result (env : Env) (prod : Product)
    (p : Payload) :
    (env.dmEmbedOk = true → env.fileExists prod.filename = false →
       deliverConfig env prod = ⟨false, true⟩) ∧
    (env.dmEmbedOk = true → env.dmFileOk = true →
       env.dmRoleNotifyOk = true →
       (deliverConfig env prod).ok = env.fileExists prod.filename) ∧
    (env.fetchUserOk = true → env.dmEmbedOk = true →
       env.dmNoticeOk = true → env.dmRoleNotifyOk = true →
       p.productId.bind (fun pid => getKey productMap pid) = some prod →
       env.fileExists prod.filename = false →
       deliverToDiscord env p = ⟨true, true⟩) := by
  refine ⟨?_, ?_, ?_⟩
  · intro he hf
    simp [deliverConfig, he, hf]
  · intro he h2 h3
    cases hfe : env.fileExists prod.filename <;>
      simp [deliverConfig, he, h2, h3, hfe, afterFileStep]
  · intro hf he hn h3 hpb hfe
    simp [deliverToDiscord, hf, he, hn, hpb, hfe, afterFileStep, h3]

/-- Witness for the amended C4 at concrete environments. -/
theorem C4_file_or_notice_result_witness :
    deliverConfig envNoFile prodLegit = ⟨false, true⟩ ∧
    (deliverConfig envA prodLegit).ok = envA.fileExists prodLegit.filename ∧
    deliverToDiscord envNoFile payloadA = ⟨true, true⟩ :=
  ⟨(C4_file_or_notice_result envNoFile prodLegit payloadA).1 rfl rfl,
   (C4_file_or_notice_result envA prodLegit payloadA).2.1 rfl rfl rfl,
   (C4_file_or_notice_result envNoFile prodLegit payloadA).2.2 rfl rfl
     rfl rfl (by decide) rfl⟩

/-- The payment handler never touches the deliveredPasses object. -/
theorem handlePayment_passes (cfg s : String) (e : Env) (p : Payload)
    (db : DB) :
    (handlePayment cfg s e p db).db.deliveredPasses =
      db.deliveredPasses := by
  unfold handlePayment
  dsimp only
  split_ifs <;> rfl

/-- The mapping handler never touches the deliveredPasses object. -/
theorem handleMap_passes (cfg s : String) (r d : Option String)
    (db : DB) :
    (handleMap cfg s r d db).db.deliveredPasses = db.deliveredPasses := by
  unfold handleMap
  split_ifs <;> rfl

/-- A claim key present in the document makes the !check loop skip its
product entirely: no ownership query, no deliverConfig invocation. -/
theorem checkLoop_skip (env : Env) (u r pid : String) (db : DB)
    (ps : List (String × Product))
    (h : hasKey db.deliveredPasses (deliveryKey r pid) = true) :
    pid ∉ (checkLoop env u r db ps).invoked ∧
    pid ∉ (checkLoop env u r db ps).queries := by
  induction ps with
  | nil => simp [checkLoop]
  | cons e rest ih =>
    obtain ⟨pid', prod⟩ := e
    by_cases h1 : hasKey db.deliveredPasses (deliveryKey r pid') = true
    · simpa [checkLoop, h1] using ih
    · have hne : pid ≠ pid' := by
        rintro rfl
        exact h1 h
      rw [Bool.not_eq_true] at h1
      by_cases h2 : checkGamePassOwnership
          (env.fetchOutcome r prod.gamePassId) = true
      · cases h3 : (deliverConfig env prod).ok <;>
          simp [checkLoop, h1, h2, h3, hne]
      · rw [Bool.not_eq_true] at h2
        simp [checkLoop, h1, h2, hne, ih.1, ih.2]

/-- A successful delivery reported by the !check loop has recorded its
claim entry in the resulting document. -/
theorem checkLoop_success_recorded (env : Env) (u r pid : String)
    (db : DB) (ps : List (String × Product))
    (h : (checkLoop env u r db ps).outcome = some (pid, true)) :
    getKey (checkLoop env u r db ps).db.deliveredPasses
      (deliveryKey r pid) = some ⟨pid, r, u, env.now⟩ := by
  induction ps with
  | nil => simp [checkLoop] at h
  | cons e rest ih =>
    obtain ⟨pid', prod⟩ := e
    by_cases h1 : hasKey db.deliveredPasses (deliveryKey r pid') = true
    · rw [show checkLoop env u r db ((pid', prod) :: rest) =
          checkLoop env u r db rest by simp [checkLoop, h1]] at h ⊢
      exact ih h
    · rw [Bool.not_eq_true] at h1
      by_cases h2 : checkGamePassOwnership
          (env.fetchOutcome r prod.gamePassId) = true
      · cases h3 : (deliverConfig env prod).ok
        · simp [checkLoop, h1, h2, h3] at h
        · simp only [checkLoop, h1, h2, h3] at h ⊢
          simp at h
          obtain ⟨rfl⟩ := h
          simp
          exact getKey_setKey_self _ _ _
      · rw [Bool.not_eq_true] at h2
        simp only [checkLoop, h1, h2, Bool.false_eq_true, if_false] at h ⊢
        exact ih h

/-- The !check loop never removes or overwrites an existing claim
entry. -/
theorem checkLoop_preserves (env : Env) (u r : String) (db : DB)
    (ps : List (String × Product)) (k : String) (c : PassClaim)
    (h : getKey db.deliveredPasses k = some c) :
    getKey (checkLoop env u r db ps).db.deliveredPasses k = some c := by
  induction ps with
  | nil => simpa [checkLoop] using h
  | cons e rest ih =>
    obtain ⟨pid', prod⟩ := e
    by_cases h1 : hasKey db.deliveredPasses (deliveryKey r pid') = true
    · simpa [checkLoop, h1] using ih
    · have hne : k ≠ deliveryKey r pid' := by
        intro hk
        apply h1
        rw [hasKey_eq_isSome, ← hk, h]
        rfl
      rw [Bool.not_eq_true] at h1
      by_cases h2 : checkGamePassOwnership
          (env.fetchOutcome r prod.gamePassId) = true
      · cases h3 : (deliverConfig env prod).ok <;>
          simp [checkLoop, h1, h2, h3, getKey_setKey_ne _ _ _ _ hne, h]
      · rw [Bool.not_eq_true] at h2
        simpa [checkLoop, h1, h2] using ih

/-- The ownership queries issued by one !check loop form a sublist of
the catalog keys in order. -/
theorem checkLoop_queries_sublist (env : Env) (u r : String) (db : DB)
    (ps : List (String × Product)) :
    (checkLoop env u r db ps).queries.Sublist (ps.map Prod.fst) := by
  induction ps with
  | nil => simp [checkLoop]
  | cons e rest ih =>
    obtain ⟨pid', prod⟩ := e
    by_cases h1 : hasKey db.deliveredPasses (deliveryKey r pid') = true
    · simp only [List.map_cons]
      rw [show checkLoop env u r db ((pid', prod) :: rest) =
          checkLoop env u r db rest by simp [checkLoop, h1]]
      exact ih.cons pid'
    · rw [Bool.not_eq_true] at h1
      by_cases h2 : checkGamePassOwnership
          (env.fetchOutcome r prod.gamePassId) = true
      · cases h3 : (deliverConfig env prod).ok <;>
          simp [checkLoop, h1, h2, h3]
      · rw [Bool.not_eq_true] at h2
        simp only [List.map_cons]
        rw [show (checkLoop env u r db ((pid', prod) :: rest)).queries =
            pid' :: (checkLoop env u r db rest).queries
          by simp [checkLoop, h1, h2]]
        exact ih.cons₂ pid'

/-- When nothing is claimed and no product before the last in iteration
order is owned, every catalog product is queried exactly once, in order:
the query for the last product is issued before its ownership answer can
stop the loop. -/
theorem checkLoop_queries_full (env : Env) (u r : String) (db : DB)
    (ps : List (String × Product))
    (hclaim : ∀ e ∈ ps,
      hasKey db.deliveredPasses (deliveryKey r e.1) = false)
    (hown : ∀ e ∈ ps.dropLast,
      checkGamePassOwnership (env.fetchOutcome r e.2.gamePassId) = false) :
    (checkLoop env u r db ps).queries = ps.map Prod.fst := by
  induction ps with
  | nil => simp [checkLoop]
  | cons e rest ih =>
    obtain ⟨pid', prod⟩ := e
    have hc := hclaim (pid', prod) (List.mem_cons_self _ _)
    cases rest with
    | nil =>
      by_cases h2 : checkGamePassOwnership
          (env.fetchOutcome r prod.gamePassId) = true
      · cases h3 : (deliverConfig env prod).ok <;>
          simp [checkLoop, hc, h2, h3]
      · rw [Bool.not_eq_true] at h2
        simp [checkLoop, hc, h2]
    | cons e2 rest2 =>
      have ho := hown (pid', prod) (by
        rw [List.dropLast_cons₂]
        exact List.mem_cons_self _ _)
      have hrest := ih
        (fun x hx => hclaim x (List.mem_cons_of_mem _ hx))
        (fun x hx => hown x (by
          rw [List.dropLast_cons₂]
          exact List.mem_cons_of_mem _ hx))
      have hstep : (checkLoop env u r db ((pid', prod) :: e2 :: rest2)).queries =
          pid' :: (checkLoop env u r db (e2 :: rest2)).queries := by
        simp [checkLoop, hc, ho]
      rw [hstep, hrest]
      simp

/-- C2: once the claim key for (externalId, productId) is present in
deliveredPasses, every later !check skips that product (no ownership
query and no deliverConfig invocation); a successful !check delivery
writes the claim key; and no operation of the system removes or
overwrites an existing claim entry. -/
theorem C2_claim_at_most_once (cfg : String) (env : Env)
    (u r pid : String) (db : DB)
    (hreg : reverseLookup db.mappings u = some r) :
    (hasKey db.deliveredPasses (deliveryKey r pid) = true →
       pid ∉ (handleCheck env u db).invoked ∧
       pid ∉ (handleCheck env u db).queries) ∧
    ((handleCheck env u db).outcome = some (pid, true) →
       getKey (handleCheck env u db).db.deliveredPasses
         (deliveryKey r pid) = some ⟨pid, r, u, env.now⟩) ∧
    (∀ (db' : DB) (op : Op) (k : String) (c : PassClaim),
       getKey db'.deliveredPasses k = some c →
       getKey (applyOp cfg db' op).deliveredPasses k = some c) := by
  have hch : handleCheck env u db = checkLoop env u r db productMap := by
    simp [handleCheck, hreg]
  refine ⟨?_, ?_, ?_⟩
  · intro h
    rw [hch]
    exact checkLoop_skip env u r pid db productMap h
  · intro h
    rw [hch] at h ⊢
    exact checkLoop_success_recorded env u r pid db productMap h
  · intro db' op k c h
    cases op with
    | payment e s p =>
      rw [show applyOp cfg db' (.payment e s p) =
          (handlePayment cfg s e p db').db from rfl,
        handlePayment_passes]
      exact h
    | mapReq s a b =>
      rw [show applyOp cfg db' (.mapReq s a b) =
          (handleMap cfg s a b db').db from rfl, handleMap_passes]
      exact h
    | registerOp a b => simpa [applyOp, registerCmd] using h
    | unlinkOp a =>
      simp only [applyOp, unlinkCmd]
      cases reverseLookup db'.mappings a <;> simpa using h
    | checkOp e d =>
      simp only [applyOp, handleCheck]
      cases hrv : reverseLookup db'.mappings d with
      | none => simpa using h
      | some rr => exact checkLoop_preserves e d rr db' productMap k c h

/-- Witness for C2: with product 1577628225 already claimed by identity
111, a fresh !check neither queries nor delivers it, and an unlink
operation leaves the claim entry intact. -/
theorem C2_claim_at_most_once_witness :
    ("1577628225" ∉ (handleCheck envA "D1" dbClaimed).invoked ∧
     "1577628225" ∉ (handleCheck envA "D1" dbClaimed).queries) ∧
    getKey (applyOp "s" dbClaimed (.unlinkOp "D1")).deliveredPasses
      "111_1577628225" = some ⟨"1577628225", "111", "D1", 0⟩ :=
  let h := C2_claim_at_most_once "s" envA "D1" "111" "1577628225"
    dbClaimed (by decide)
  ⟨h.1 (by decide),
   h.2.2 dbClaimed (.unlinkOp "D1") "111_1577628225"
     ⟨"1577628225", "111", "D1", 0⟩ (by decide)⟩

/-- C9 amended: each product the !check loop reaches issues exactly one
fresh ownership query — the query list is a duplicate-free in-order
sublist of the catalog keys, so one trigger costs at most k queries
rather than always k — and the cost is exactly k whenever no product is
already claimed and no product before the last in iteration order is
owned (owning only the last product still costs k, because its query is
issued before the ownership answer); claimed products are skipped
without a query and the loop returns at the first owned product. -/
theorem C9_query_cost (env : Env) (u r : String) (db : DB)
    (hreg : reverseLookup db.mappings u = some r) :
    (handleCheck env u db).queries.Sublist (productMap.map Prod.fst) ∧
    (handleCheck env u db).queries.Nodup ∧
    (handleCheck env u db).queries.length ≤ productMap.length ∧
    ((∀ e ∈ productMap,
        hasKey db.deliveredPasses (deliveryKey r e.1) = false) →
     (∀ e ∈ productMap.dropLast,
        checkGamePassOwnership (env.fetchOutcome r e.2.gamePassId) = false) →
      (handleCheck env u db).queries = productMap.map Prod.fst) := by
  have hch : handleCheck env u db = checkLoop env u r db productMap := by
    simp [handleCheck, hreg]
  rw [hch]
  have hsub := checkLoop_queries_sublist env u r db productMap
  refine ⟨hsub, List.Nodup.sublist hsub (by decide), ?_, ?_⟩
  · simpa using hsub.length_le
  · intro hclaim hown
    exact checkLoop_queries_full env u r db productMap hclaim hown

/-- Witness for the amended C9: a registered user owning nothing, and
one owning exactly the numerically last catalog product, are each
charged exactly one query per catalog product. -/
theorem C9_query_cost_witness :
    (handleCheck envOwnsNothing "D1" dbReg).queries =
      productMap.map Prod.fst ∧
    (handleCheck envOwnsLast "D1" dbReg).queries =
      productMap.map Prod.fst :=
  ⟨(C9_query_cost envOwnsNothing "D1" "111" dbReg (by decide)).2.2.2
     (by decide) (by decide),
   (C9_query_cost envOwnsLast "D1" "111" dbReg (by decide)).2.2.2
     (by decide) (by decide)⟩

/-- C9 counterexample: a registered user owning the numerically first
catalog product triggers a !check that issues one ownership query, not
one per catalog product — the catalog has three. -/
theorem C9_query_cost_counterexample :
    reverseLookup dbReg.mappings "D1" = some "111" ∧
    (handleCheck envOwnsFirst "D1" dbReg).queries = ["1577628225"] ∧
    productMap.length = 3 :=
  ⟨by decide, by decide, rfl⟩

end AtomicDb
